import Mathlib

/-!
Verification development for the DevBridge MCP remote-executor server
(`src/index.ts`).  The TypeScript source is shallowly embedded: pure
helpers become Lean functions over `String`/`List Char`; subprocess and
filesystem results are passed in as explicit oracle values (`ExecResult`,
environment records); the per-session cycle orchestrator is modelled as a
labelled transition system whose steps mirror the source's control flow.
All string manipulation is implemented over `List Char` so that concrete
instances evaluate inside the kernel.
-/

namespace DevBridge

/-! ## Character/string helpers (JS semantics, over `List Char`) -/

/-- Characters removed by JS `String.prototype.trim` (ASCII subset used here). -/
def trimChars (cs : List Char) : List Char :=
  ((cs.dropWhile Char.isWhitespace).reverse.dropWhile Char.isWhitespace).reverse

/-- Model of JS `s.trim()`. -/
def jsTrim (s : String) : String :=
  String.mk (trimChars s.data)

/-- Containment of `needle` in a character list, as in JS `String.prototype.includes`. -/
def charsContains (needle : List Char) : List Char → Bool
  | [] => needle.isEmpty
  | c :: rest => needle.isPrefixOf (c :: rest) || charsContains needle rest

/-- JS `hay.includes(needle)`. -/
def strContains (hay needle : String) : Bool :=
  charsContains needle.data hay.data

/-- Split a character list on a separator character, as JS `s.split(sep)`. -/
def splitOnCharAux (sep : Char) : List Char → List Char → List (List Char)
  | acc, [] => [acc.reverse]
  | acc, c :: rest =>
    if c = sep then acc.reverse :: splitOnCharAux sep [] rest
    else splitOnCharAux sep (c :: acc) rest

/-- JS `s.split(sep)` for a one-character separator. -/
def splitOnChar (sep : Char) (cs : List Char) : List (List Char) :=
  splitOnCharAux sep [] cs

/-- Remove the first occurrence of `needle`, as JS `s.replace(needle, "")`
with a string pattern (which replaces only the first occurrence). -/
def removeFirstOccurrenceChars (needle : List Char) : List Char → List Char
  | [] => []
  | c :: rest =>
    if needle.isPrefixOf (c :: rest) then (c :: rest).drop needle.length
    else c :: removeFirstOccurrenceChars needle rest

/-- JS `s.replace(pat, "")` (string pattern: first occurrence only). -/
def stripFirstOccurrence (s pat : String) : String :=
  String.mk (removeFirstOccurrenceChars pat.data s.data)

/-- Digit-list value in base 10. -/
def digitsValue (ds : List Char) : Nat :=
  ds.foldl (fun a c => a * 10 + (c.toNat - '0'.toNat)) 0

/-- Tail of JS `parseInt(s, 10)` after the optional sign has been consumed. -/
def jsParseIntFrom (neg : Bool) (cs : List Char) : Option Int :=
  let ds := cs.takeWhile Char.isDigit
  if ds.isEmpty then none
  else some (if neg then -(digitsValue ds : Int) else (digitsValue ds : Int))

/-- Model of JS `parseInt(s, 10)`: skip leading whitespace, optional sign,
then the longest digit run; `none` models `NaN`. -/
def jsParseInt (s : String) : Option Int :=
  match s.data.dropWhile Char.isWhitespace with
  | '-' :: t => jsParseIntFrom true t
  | '+' :: t => jsParseIntFrom false t
  | t => jsParseIntFrom false t

/-- ASCII lower-casing, as JS `toLowerCase` restricted to the ASCII
signatures this program compares against. -/
def toLowerAscii (s : String) : String :=
  String.mk (s.data.map Char.toLower)

/-- Node `path.posix.basename`: trailing separators are ignored, then the
final non-separator run is returned. -/
def posixBasename (s : String) : String :=
  String.mk (((s.data.reverse.dropWhile (fun c => c = '/')).takeWhile
    (fun c => c ≠ '/')).reverse)

/-- Node `path.posix.dirname` (the scan-from-the-end algorithm of
`lib/path.js`). -/
def posixDirname (s : String) : String :=
  match s.data with
  | [] => "."
  | c0 :: rest =>
    let hasRoot := c0 = '/'
    let rev2 := ((c0 :: rest).reverse.dropWhile (fun c => c = '/')).dropWhile
      (fun c => c ≠ '/')
    match rev2 with
    | [] => if hasRoot then "/" else "."
    | _ :: tail =>
      if tail.isEmpty then (if hasRoot then "/" else ".")
      else String.mk tail.reverse

/-! ## Command Executor (`executeCommand`, src/index.ts lines 183-223)

The child process is modelled by the ordered list of events its handlers
would observe: data chunks on the two captured streams, then a `close`
event (exit code, `none` for a null code as delivered after a kill) or an
`error` event (spawn failure).  The promise settles on the first `close`
or `error` event; later events have no effect, which models
`resolve` being a no-op on an already-settled promise. -/

structure ExecResult where
  stdout : String
  stderr : String
  exitCode : Int
deriving DecidableEq, Repr

inductive ProcEvent
  | stdoutData (chunk : String)
  | stderrData (chunk : String)
  | close (code : Option Int)
  | errored (message : String)
deriving DecidableEq, Repr

/-- Does this event settle the promise returned by `executeCommand`? -/
def settlesEvent : ProcEvent → Bool
  | .close _ => true
  | .errored _ => true
  | _ => false

/-- Event-loop fold for `executeCommand`: accumulate stream chunks and
resolve on the first settling event.  `none` models a promise that never
settles (the process never closed); it is not an exception. -/
def runExec (out err : String) : List ProcEvent → Option ExecResult
  | [] => none
  | .stdoutData c :: rest => runExec (out ++ c) err rest
  | .stderrData c :: rest => runExec out (err ++ c) rest
  | .close code :: _ => some ⟨jsTrim out, jsTrim err, code.getD (-1)⟩
  | .errored msg :: _ => some ⟨"", msg, -1⟩

/-- `executeCommand(program, args, timeoutMs, cwd)` run against an event
trace.  The program, arguments, timeout and working directory configure the
spawn but do not influence how a given event trace is folded into the
structured result. -/
def executeCommand (program : String) (args : List String) (timeoutMs : Int)
    (cwd : Option String) (events : List ProcEvent) : Option ExecResult :=
  runExec "" "" events

/-- Concatenation of the stdout chunks of a (non-settling) event prefix. -/
def collectStdout : List ProcEvent → String
  | [] => ""
  | .stdoutData c :: rest => c ++ collectStdout rest
  | _ :: rest => collectStdout rest

/-- Concatenation of the stderr chunks of a (non-settling) event prefix. -/
def collectStderr : List ProcEvent → String
  | [] => ""
  | .stderrData c :: rest => c ++ collectStderr rest
  | _ :: rest => collectStderr rest

/-! ## Argument validation (src/index.ts lines 64-181, 586-592)

Each `assert*` function of the source throws on malformed input and
returns the (unchanged) value otherwise; here they return
`Except String α`.  The regular expressions are unfolded into character
predicates. -/

/-- Character class `[A-Za-z0-9._-]` of `SAFE_SERVER_RE` and the
session-name pattern. -/
def safeNameChar (c : Char) : Bool :=
  c.isAlpha || c.isDigit || c = '.' || c = '_' || c = '-'

/-- `CONTROL_CHAR_RE = /[\0\r\n]/` applied to a string. -/
def hasControlChar (s : String) : Bool :=
  s.data.any (fun c => c = Char.ofNat 0 || c = '\r' || c = '\n')

/-- `assertString`: the value must be a string whose trim is non-empty
(the `typeof` half of the check is carried by the Lean type). -/
def assertString (value field : String) : Except String String :=
  if jsTrim value = "" then .error (field ++ " must be a non-empty string")
  else .ok value

/-- `assertNoControlChars`. -/
def assertNoControlChars (value field : String) : Except String String :=
  if hasControlChar value then .error (field ++ " contains invalid control characters")
  else .ok value

/-- `assertServerName` (`SAFE_SERVER_RE = /^[A-Za-z0-9._-]+$/`). -/
def assertServerName (value : String) (field : String := "server") : Except String String :=
  match assertString value field with
  | .error e => .error e
  | .ok s =>
    match assertNoControlChars s field with
    | .error e => .error e
    | .ok s2 =>
      if s2.data ≠ [] && s2.data.all safeNameChar then .ok s2
      else .error (field ++ " must match safe-name pattern (letters, numbers, ., _, -)")

/-- `assertPath`. -/
def assertPath (value field : String) : Except String String :=
  match assertString value field with
  | .error e => .error e
  | .ok s => assertNoControlChars s field

/-- `assertPositiveInt` (integrality is carried by the `Int` type). -/
def assertPositiveInt (value : Int) (field : String) : Except String Int :=
  if 0 < value then .ok value else .error (field ++ " must be a positive integer")

/-- `assertStringArray`: every element validated like a path-ish string. -/
def assertStringArray (values : List String) (field : String) : Except String (List String) :=
  match values with
  | [] => .ok []
  | v :: rest =>
    match assertString v field with
    | .error e => .error e
    | .ok s =>
      match assertNoControlChars s field with
      | .error e => .error e
      | .ok s2 =>
        match assertStringArray rest field with
        | .error e => .error e
        | .ok tail => .ok (s2 :: tail)

/-- `assertSessionName` (src/index.ts lines 586-592). -/
def assertSessionName (value : String) : Except String String :=
  match assertString value "session_name" with
  | .error e => .error e
  | .ok s =>
    match assertNoControlChars s "session_name" with
    | .error e => .error e
    | .ok s2 =>
      if s2.data ≠ [] && s2.data.all safeNameChar then .ok s2
      else .error "session_name must contain only letters, numbers, ., _, -"

inductive SyncMethod
  | auto
  | rsync
  | scp
deriving DecidableEq, Repr

/-- `assertSyncMethod`: lower-case and check membership in
`SAFE_SYNC_METHOD_SET`. -/
def assertSyncMethod (value : String) : Except String SyncMethod :=
  match assertString value "method" with
  | .error e => .error e
  | .ok s =>
    match assertNoControlChars s "method" with
    | .error e => .error e
    | .ok s2 =>
      let m := toLowerAscii s2
      if m = "auto" then .ok .auto
      else if m = "rsync" then .ok .rsync
      else if m = "scp" then .ok .scp
      else .error "method must be one of: auto, rsync, scp"

inductive DevSessionMode
  | short
  | long
deriving DecidableEq, Repr

/-- `assertDevSessionMode`. -/
def assertDevSessionMode (value : String) : Except String DevSessionMode :=
  match assertString value "mode" with
  | .error e => .error e
  | .ok s =>
    match assertNoControlChars s "mode" with
    | .error e => .error e
    | .ok s2 =>
      let m := toLowerAscii s2
      if m = "short" then .ok .short
      else if m = "long" then .ok .long
      else .error "mode must be short or long"

/-! ## Shell quoting and transport argument builders
(src/index.ts lines 175-181, 225-310) -/

/-- `shellQuote`: wrap in single quotes, replacing every embedded single
quote by the five-character sequence quote, double-quote, quote,
double-quote, quote. -/
def shellQuote (value : String) : String :=
  "'" ++ String.mk (value.data.foldr
    (fun c acc =>
      if c = '\'' then '\'' :: '"' :: '\'' :: '"' :: '\'' :: acc
      else c :: acc) []) ++ "'"

/-- `shellQuoteArgs`. -/
def shellQuoteArgs (parts : List String) : String :=
  String.intercalate " " (parts.map shellQuote)

/-- Entry of the `servers` config mapping. -/
structure ServerConfig where
  host : String
  user : String
  port : Option Int := none
  identity_file : Option String := none
deriving DecidableEq, Repr

/-- The five fixed `-o` option pairs always injected by
`buildSSHBaseArgs` (connection multiplexing included). -/
def sshFixedOptions : List String :=
  ["-o", "BatchMode=yes",
   "-o", "ConnectTimeout=10",
   "-o", "ControlMaster=auto",
   "-o", "ControlPersist=300",
   "-o", "ControlPath=~/.ssh/remote-executor-%C"]

/-- `buildSSHBaseArgs` (src/index.ts lines 225-261).  `cfg` is the result
of the `config.servers[serverName]` lookup.  Note `identity_file` is
included only when truthy (the empty string is skipped). -/
def buildSSHBaseArgs (server : String) (cfg : Option ServerConfig) :
    Except String (List String × String) :=
  match assertServerName server with
  | .error e => .error e
  | .ok serverName =>
    match cfg with
    | none => .ok (sshFixedOptions, serverName)
    | some sc =>
      match (match sc.port with
             | some p =>
               (match assertPositiveInt p "port" with
                | .error e => .error e
                | .ok v => .ok ["-p", toString v] : Except String (List String))
             | none => (.ok [] : Except String (List String))) with
      | .error e => .error e
      | .ok portArgs =>
        match (match sc.identity_file with
               | some f =>
                 if f ≠ "" then
                   (match assertPath f "identity_file" with
                    | .error e => .error e
                    | .ok v => .ok ["-i", v] : Except String (List String))
                 else (.ok [] : Except String (List String))
               | none => (.ok [] : Except String (List String))) with
        | .error e => .error e
        | .ok idArgs =>
          match assertString sc.user "user" with
          | .error e => .error e
          | .ok u =>
            match assertNoControlChars u "user" with
            | .error e => .error e
            | .ok user =>
              match assertString sc.host "host" with
              | .error e => .error e
              | .ok h =>
                match assertNoControlChars h "host" with
                | .error e => .error e
                | .ok host =>
                  .ok (sshFixedOptions ++ portArgs ++ idArgs, user ++ "@" ++ host)

/-- `buildSSHArgs`. -/
def buildSSHArgs (server : String) (cfg : Option ServerConfig)
    (remoteCommand : String) : Except String (List String) :=
  match buildSSHBaseArgs server cfg with
  | .error e => .error e
  | .ok (args, target) => .ok (args ++ [target, remoteCommand])

/-- The pairwise copy loop of `buildSCPArgs` (lines 278-284): option pairs
are copied unchanged except that an ssh `-p` flag becomes scp's `-P`.
The generated base argument lists always have even length, so the
singleton case is unreachable on real inputs. -/
def scpRewriteOptionPairs : List String → List String
  | a :: b :: rest => (if a = "-p" then "-P" else a) :: b :: scpRewriteOptionPairs rest
  | [a] => [a]
  | [] => []

inductive ScpDirection
  | upload
  | download
deriving DecidableEq, Repr

/-- `localPath: string | string[]` of `buildSCPArgs`. -/
inductive ScpLocal
  | single (p : String)
  | multi (ps : List String)
deriving DecidableEq, Repr

/-- `buildSCPArgs` (src/index.ts lines 268-299). -/
def buildSCPArgs (server : String) (cfg : Option ServerConfig)
    (direction : ScpDirection) (localPath : ScpLocal) (remotePath : String) :
    Except String (List String) :=
  match buildSSHBaseArgs server cfg with
  | .error e => .error e
  | .ok (args, target) =>
    let scpArgs := "-r" :: scpRewriteOptionPairs args
    let remoteSpec := target ++ ":" ++ remotePath
    match direction, localPath with
    | .upload, .single p => .ok (scpArgs ++ [p, remoteSpec])
    | .upload, .multi ps => .ok (scpArgs ++ ps ++ [remoteSpec])
    | .download, .single p => .ok (scpArgs ++ [remoteSpec, p])
    | .download, .multi _ => .error "download direction expects a single local path"

/-- `buildRsyncSshCommand`. -/
def buildRsyncSshCommand (server : String) (cfg : Option ServerConfig) :
    Except String String :=
  match buildSSHBaseArgs server cfg with
  | .error e => .error e
  | .ok (args, _) => .ok (shellQuoteArgs ("ssh" :: args))

/-- `buildRsyncRemoteTarget`. -/
def buildRsyncRemoteTarget (server : String) (cfg : Option ServerConfig)
    (remotePath : String) : Except String String :=
  match buildSSHBaseArgs server cfg with
  | .error e => .error e
  | .ok (_, target) => .ok (target ++ ":" ++ shellQuote remotePath)

/-! ## Sync Engine (src/index.ts lines 312-346, 386-519)

Filesystem state (`statSync`, `readdirSync`) and the outcome of each
external invocation are supplied through a `SyncEnv` oracle; the engine
records which external commands it issued in a trace list. -/

/-- Result of `statSync(localPath)`; `none` models the call throwing
(path absent). -/
inductive FileKind
  | file
  | dir
  | other
deriving DecidableEq, Repr

/-- `resolveScpUploadRemoteMkdirPath`. -/
def resolveScpUploadRemoteMkdirPath (localPath remotePath : String)
    (localStat : Option FileKind) : String :=
  match localStat with
  | some .file => posixDirname remotePath
  | _ => remotePath

/-- Child-name to path, as `join(localPath, name)` (the platform join's
normalisation of dot segments is out of scope; names returned by
`readdirSync` are plain entries). -/
def joinChild (localPath name : String) : String :=
  localPath ++ "/" ++ name

/-- `resolveScpUploadLocalSources`: a directory contributes its immediate
children, anything else (including a missing path) the path itself. -/
def resolveScpUploadLocalSources (localPath : String) (localStat : Option FileKind)
    (children : List String) : List String :=
  match localStat with
  | some .dir => children.map (joinChild localPath)
  | _ => [localPath]

/-- `resolveRsyncSourcePath`: directories get a trailing separator so only
their contents are mirrored. -/
def resolveRsyncSourcePath (localPath : String) (localStat : Option FileKind) : String :=
  match localStat with
  | some .dir =>
    if localPath.data.getLast? = some '/' then localPath else localPath ++ "/"
  | _ => localPath

/-- `isRsyncUnavailable` (src/index.ts lines 386-394). -/
def isRsyncUnavailable (result : ExecResult) : Bool :=
  let combined := toLowerAscii (result.stdout ++ "\n" ++ result.stderr)
  if result.exitCode = 127 then true
  else
    strContains combined "rsync: command not found" ||
    strContains combined "failed to exec rsync" ||
    strContains combined "remote command not found"

structure SyncExecutionResult where
  success : Bool
  method : SyncMethod
  exit_code : Int
  output : String
  stderr : String
  exclude : List String
  delete_remote_extra : Bool
  fallback_used : Bool
  rsync_error : Option String := none
deriving DecidableEq, Repr

/-- One external invocation issued by the sync engine. -/
inductive SyncCall
  | rsyncCall (args : List String)
  | remoteCall (cmd : String)
  | scpCall (args : List String)
deriving DecidableEq, Repr

/-- Oracle for the Sync Engine: what the filesystem and the external
commands would report if invoked. -/
structure SyncEnv where
  rsyncRes : ExecResult
  mkdirRes : ExecResult
  scpRes : ExecResult
  localStat : Option FileKind
  localChildren : List String
deriving Repr

/-- `[rsyncResult.stdout, rsyncResult.stderr].filter(Boolean).join("\n")`. -/
def joinRsyncOutputs (r : ExecResult) : String :=
  String.intercalate "\n" ([r.stdout, r.stderr].filter (fun s => s ≠ ""))

/-- Package an `ExecResult` into the sync result record (lines 505-518). -/
def mkSyncResult (method : SyncMethod) (r : ExecResult) (exclude : List String)
    (deleteExtra fallbackUsed : Bool) (rsyncError : Option String) :
    SyncExecutionResult :=
  { success := decide (r.exitCode = 0)
    method := method
    exit_code := r.exitCode
    output := r.stdout
    stderr := r.stderr
    exclude := exclude
    delete_remote_extra := deleteExtra
    fallback_used := fallbackUsed
    rsync_error := rsyncError }

/-- The scp upload phase shared by the fallback branch and the forced-scp
branch (lines 456-475 and 482-501): a blocking remote `mkdir -p`, then an
scp of the computed local sources (a no-op success when that list is
empty). -/
def scpUploadPhase (safeServer safeLocalPath safeRemotePath : String)
    (cfg : Option ServerConfig) (env : SyncEnv) :
    Except String (ExecResult × List SyncCall) :=
  let remoteMkdirPath := resolveScpUploadRemoteMkdirPath safeLocalPath safeRemotePath env.localStat
  let scpSourcePaths := resolveScpUploadLocalSources safeLocalPath env.localStat env.localChildren
  let mkdirCmd := "mkdir -p " ++ shellQuote remoteMkdirPath
  match buildSSHArgs safeServer cfg mkdirCmd with
  | .error e => .error e
  | .ok _ =>
    if scpSourcePaths.isEmpty then
      .ok (⟨"", "", 0⟩, [.remoteCall mkdirCmd])
    else
      match buildSCPArgs safeServer cfg .upload (.multi scpSourcePaths) safeRemotePath with
      | .error e => .error e
      | .ok scpArgs => .ok (env.scpRes, [.remoteCall mkdirCmd, .scpCall scpArgs])

/-- `performRemoteSync` (src/index.ts lines 408-519) against a `SyncEnv`
oracle.  Returns the structured sync result together with the trace of
external commands issued. -/
def performRemoteSync (server local_path remote_path : String)
    (exclude : Option (List String)) (method : Option SyncMethod)
    (delete_remote_extra : Option Bool) (cfg : Option ServerConfig)
    (env : SyncEnv) : Except String (SyncExecutionResult × List SyncCall) :=
  match assertServerName server with
  | .error e => .error e
  | .ok safeServer =>
  match assertPath local_path "local_path" with
  | .error e => .error e
  | .ok safeLocalPath =>
  match assertPath remote_path "remote_path" with
  | .error e => .error e
  | .ok safeRemotePath =>
  match (match exclude with
         | some xs => assertStringArray xs "exclude"
         | none => .ok []) with
  | .error e => .error e
  | .ok safeExclude =>
    let safeMethod := method.getD .auto
    let safeDeleteRemoteExtra := delete_remote_extra.getD false
    let rsyncSourcePath := resolveRsyncSourcePath safeLocalPath env.localStat
    if safeMethod ≠ .scp then
      match buildRsyncSshCommand safeServer cfg with
      | .error e => .error e
      | .ok sshCmd =>
      match buildRsyncRemoteTarget safeServer cfg safeRemotePath with
      | .error e => .error e
      | .ok rsyncTarget =>
        let rsyncArgs :=
          ["-az", "--partial", "--human-readable", "-e", sshCmd] ++
          (if safeDeleteRemoteExtra then ["--delete"] else []) ++
          (safeExclude.map (fun p => ["--exclude", p])).flatten ++
          [rsyncSourcePath, rsyncTarget]
        let rsyncResult := env.rsyncRes
        if rsyncResult.exitCode = 0 then
          .ok (mkSyncResult .rsync rsyncResult safeExclude safeDeleteRemoteExtra false none,
               [.rsyncCall rsyncArgs])
        else if safeMethod = .auto ∧ isRsyncUnavailable rsyncResult = true then
          match scpUploadPhase safeServer safeLocalPath safeRemotePath cfg env with
          | .error e => .error e
          | .ok (res, calls) =>
            .ok (mkSyncResult .scp res safeExclude safeDeleteRemoteExtra true
                   (some (joinRsyncOutputs rsyncResult)),
                 .rsyncCall rsyncArgs :: calls)
        else
          .ok (mkSyncResult .rsync rsyncResult safeExclude safeDeleteRemoteExtra false none,
               [.rsyncCall rsyncArgs])
    else
      match scpUploadPhase safeServer safeLocalPath safeRemotePath cfg env with
      | .error e => .error e
      | .ok (res, calls) =>
        .ok (mkSyncResult .scp res safeExclude safeDeleteRemoteExtra false none, calls)

/-! ## Background PID parsing (src/index.ts lines 358-379) -/

/-- The `__MCP_PID__` marker. -/
def pidMarker : String := "__MCP_PID__"

/-- Does a (trimmed) line start with the PID marker? -/
def isMarkerLine (l : String) : Bool :=
  pidMarker.data.isPrefixOf l.data

/-- Lines of the raw output: split on newline, trim, drop empties
(`.filter(Boolean)`). -/
def outputLines (raw : String) : List String :=
  ((splitOnChar '\n' raw.data).map (fun cs => String.mk (trimChars cs))).filter
    (fun l => l ≠ "")

/-- The fallback scan: the last line consisting purely of digits whose
parsed value is positive (lines 371-376). -/
def digitLineFallback (lines : List String) : Option Int :=
  lines.reverse.findSome? (fun l =>
    if l.data ≠ [] && l.data.all Char.isDigit then
      match jsParseInt l with
      | some pid => if 0 < pid then some pid else none
      | none => none
    else none)

/-- Marker-first parse over the prepared line list. -/
def parsePidLines (lines : List String) : Option Int :=
  match lines.find? isMarkerLine with
  | some m =>
    match jsParseInt (stripFirstOccurrence m pidMarker) with
    | some pid => if 0 < pid then some pid else digitLineFallback lines
    | none => digitLineFallback lines
  | none => digitLineFallback lines

/-- `parseBackgroundPid`. -/
def parseBackgroundPid (rawOutput : String) : Option Int :=
  parsePidLines (outputLines rawOutput)

/-! ## Watch-layer path filter (src/index.ts lines 599-632) -/

/-- `normalizeWatchPath`: uniform forward-slash separators. -/
def normalizeWatchPath (value : String) : String :=
  String.mk (value.data.map (fun c => if c = '\\' then '/' else c))

/-- A JS regex line terminator (what `.` does not match). -/
def isJsLineTerminator (c : Char) : Bool :=
  c = '\n' || c = '\r' || c = Char.ofNat 0x2028 || c = Char.ofNat 0x2029

/-- Suffixes of `t` reachable by letting `.*` consume a prefix: any run of
characters none of which is a line terminator may be skipped. -/
def starSuffixes : List Char → List (List Char)
  | [] => [[]]
  | c :: ts => (c :: ts) :: (if isJsLineTerminator c then [] else starSuffixes ts)

/-- Matching of the anchored regex produced by `wildcardToRegex`: every
character other than `*` is escaped (hence literal), `*` becomes `.*`,
where `.` matches any character except a line terminator (the `s` flag is
not set). -/
def globMatch : List Char → List Char → Bool
  | [], t => t.isEmpty
  | '*' :: ps, t => (starSuffixes t).any (fun suf => globMatch ps suf)
  | p :: ps, c :: ts => p = c && globMatch ps ts
  | _ :: _, [] => false

/-- `wildcardToRegex(p).test(target)`. -/
def wildcardTest (pattern target : String) : Bool :=
  globMatch pattern.data target.data

/-- `shouldIgnorePath` (src/index.ts lines 610-632). -/
def shouldIgnorePath (relativePath : String) (excludePatterns : List String) : Bool :=
  let normalized := normalizeWatchPath relativePath
  let base := posixBasename normalized
  excludePatterns.any (fun pattern =>
    let p := normalizeWatchPath pattern
    if !p.data.any (fun c => c = '*') then
      if p.data.any (fun c => c = '/') then
        normalized = p || (p ++ "/").data.isPrefixOf normalized.data
      else
        normalized = p || strContains normalized ("/" ++ p ++ "/") || base = p
    else
      if p.data.any (fun c => c = '/') then wildcardTest p normalized
      else wildcardTest p base)

/-! ## Session data model (src/index.ts lines 539-584)

Timer and watcher handles are modelled as plain data: `debounceTimer`
holds the reason of the armed timer (a `setTimeout` handle), the boolean
`pollingTimer`/`watcher` record whether those resources are live. -/

inductive DevSessionState
  | running
  | stopped
  | error
deriving DecidableEq, Repr

structure DevSession where
  id : String
  name : String := "dev-session"
  server : String := "srv"
  localPath : String := "/local"
  remotePath : String := "/remote"
  remoteWorkingDir : String := "/remote"
  exclude : List String := []
  syncMethod : SyncMethod := .auto
  deleteRemoteExtra : Bool := false
  mode : DevSessionMode := .short
  shortCommand : Option String := none
  longCommand : Option String := none
  debounceMs : Int := 800
  pollIntervalSeconds : Int := 5
  logLines : Int := 80
  followSeconds : Int := 1
  watcher : Bool := false
  debounceTimer : Option String := none
  pollingTimer : Bool := false
  running : Bool := false
  pending : Bool := false
  stopRequested : Bool := false
  status : DevSessionState := .running
  startedAt : Nat := 0
  lastSyncAt : Option Nat := none
  lastRunAt : Option Nat := none
  syncCount : Nat := 0
  runCount : Nat := 0
  changedPaths : List String := []
  lastError : Option String := none
  lastOperation : Option String := none
  pid : Option Int := none
  logFile : Option String := none
  lastSyncResult : Option SyncExecutionResult := none
  lastShortRun : Option ExecResult := none
  lastTailLog : Option String := none
  lastTailStderr : Option String := none
  lastProcessInfo : Option String := none
  isProcessRunning : Option Bool := none
deriving DecidableEq, Repr

/-- JS truthiness of the optional numeric `session.pid` (`0` is falsy). -/
def truthyPid : Option Int → Bool
  | none => false
  | some n => n ≠ 0

/-- JS truthiness of an optional string (the empty string is falsy). -/
def truthyStr : Option String → Bool
  | none => false
  | some s => s ≠ ""

/-- `markSessionError` (lines 669-672). -/
def markSessionError (session : DevSession) (message : String) : DevSession :=
  { session with status := .error, lastError := some message }

/-- `scheduleDevSessionCycle` (lines 801-809): no-op once stop has been
requested; otherwise the pending debounce timer is cleared and a fresh one
armed (reset, not accumulate). -/
def scheduleDevSessionCycle (session : DevSession) (reason : String) : DevSession :=
  if session.stopRequested then session
  else { session with debounceTimer := some reason }

/-! ## Long-Task Supervisor start path (`maybeStartLongTask`,
src/index.ts lines 685-717) -/

/-- Remote invocations issued by `maybeStartLongTask`. -/
inductive LongCall
  | psLookup (pid : Int)
  | launch (cmd : String)
deriving DecidableEq, Repr

/-- Outcome of a cycle-body step: normal completion or a thrown error
caught by `runDevSessionCycle`'s `catch`. -/
inductive CycleOutcome
  | ok
  | threw (message : String)
deriving DecidableEq, Repr

/-- Oracle for `maybeStartLongTask`: the liveness lookup result, the
background-launch result, and the timestamp-derived fresh log-file stamp. -/
structure LongEnv where
  checkRes : ExecResult
  startRes : ExecResult
  freshStamp : String := "stamp"
  now : Nat := 0
deriving Repr

/-- The detached launch command string (line 703). -/
def bgCommand (session : DevSession) (actualLogFile : String) : String :=
  "cd " ++ shellQuote session.remoteWorkingDir ++ " && nohup " ++
    (session.longCommand.getD "") ++ " > " ++ shellQuote actualLogFile ++
    " 2>&1 < /dev/null & printf \"__MCP_PID__%s\\n\" \"$!\""

/-- The launch phase of `maybeStartLongTask` (lines 700-717). -/
def launchLongTask (session : DevSession) (env : LongEnv) (calls : List LongCall) :
    DevSession × CycleOutcome × List LongCall :=
  let actualLogFile :=
    match session.logFile with
    | some f => if f ≠ "" then f else
        session.remoteWorkingDir ++ "/" ++ session.name ++ "_" ++ env.freshStamp ++ ".log"
    | none => session.remoteWorkingDir ++ "/" ++ session.name ++ "_" ++ env.freshStamp ++ ".log"
  let calls2 := calls ++ [.launch (bgCommand session actualLogFile)]
  let pid := parseBackgroundPid env.startRes.stdout
  if env.startRes.exitCode ≠ 0 ∨ pid = none then
    (session,
     .threw ("failed to start long task: " ++
       (if env.startRes.stderr ≠ "" then env.startRes.stderr else env.startRes.stdout)),
     calls2)
  else
    ({ session with
        pid := pid
        logFile := some actualLogFile
        isProcessRunning := some true
        runCount := session.runCount + 1
        lastRunAt := some env.now
        lastOperation := some "long task started" },
     .ok, calls2)

/-- `maybeStartLongTask` (src/index.ts lines 685-717). -/
def maybeStartLongTask (session : DevSession) (env : LongEnv) :
    DevSession × CycleOutcome × List LongCall :=
  if session.mode ≠ .long ∨ truthyStr session.longCommand = false then
    (session, .ok, [])
  else if truthyPid session.pid = true then
    let p := session.pid.getD 0
    let alive := decide (env.checkRes.exitCode = 0) && jsTrim env.checkRes.stdout ≠ ""
    let s1 := { session with
                  isProcessRunning := some alive
                  lastProcessInfo := some env.checkRes.stdout }
    if alive then (s1, .ok, [.psLookup p])
    else launchLongTask s1 env [.psLookup p]
  else
    launchLongTask session env []

/-! ## Session Cycle Orchestrator

Two views of `runDevSessionCycle` (src/index.ts lines 748-799) are used.

`cycleIteration` is the sequential body of one drain-loop iteration
(lines 759-792) with the sync result and the remote-command results passed
as oracles, and `runDevSessionCycleOnce` is a full invocation in which no
concurrent trigger interleaves (so the drain loop runs exactly one
iteration: the body clears `pending` and nothing rearms it).

`cycleStep` below is the concurrency skeleton: an LTS over
running/pending/stopRequested with an iteration counter, whose transitions
are read off the same lines; triggers may interleave at the `await` points
of an iteration. -/

/-- One drain-loop iteration body (lines 759-792).  `syncResult` stands
for the value returned by `performRemoteSync`, `shortRes` for the
`executeRemoteCommand` of the short command, and `env` for
`maybeStartLongTask`'s oracles. -/
def cycleIteration (session : DevSession) (reason : String)
    (syncResult : SyncExecutionResult) (now : Nat) (shortRes : ExecResult)
    (env : LongEnv) : DevSession × CycleOutcome :=
  let s1 := { session with
                pending := false
                status := .running
                lastError := none
                lastOperation := some ("sync (" ++ reason ++ ")") }
  let s2 := { s1 with
                lastSyncResult := some syncResult
                syncCount := s1.syncCount + 1
                lastSyncAt := some now
                changedPaths := [] }
  if syncResult.success = false then
    (s2, .threw (if syncResult.stderr ≠ "" then syncResult.stderr
                 else "sync failed with exit code " ++ toString syncResult.exit_code))
  else if session.mode = .short ∧ truthyStr session.shortCommand = true then
    let s3 := { s2 with
                  lastOperation := some "short command run"
                  lastShortRun := some shortRes
                  runCount := s2.runCount + 1
                  lastRunAt := some now }
    let failMsg := "short command failed with exit code " ++ toString shortRes.exitCode
    if shortRes.exitCode ≠ 0 then ({ s3 with lastError := some failMsg }, .ok)
    else (s3, .ok)
  else if session.mode = .long then
    let r := maybeStartLongTask s2 env
    (r.1, r.2.1)
  else (s2, .ok)

/-- A full `runDevSessionCycle` invocation with no interleaved triggers
(lines 748-799): the stop guard, the single-flight guard, one iteration of
the drain loop, the `catch` (`markSessionError`) and the `finally`
(`running := false`). -/
def runDevSessionCycleOnce (session : DevSession) (reason : String)
    (syncResult : SyncExecutionResult) (now : Nat) (shortRes : ExecResult)
    (env : LongEnv) : DevSession :=
  if session.stopRequested then session
  else if session.running then { session with pending := true }
  else
    match cycleIteration { session with running := true } reason syncResult now shortRes env with
    | (s1, .ok) => { s1 with running := false }
    | (s1, .threw msg) => { markSessionError s1 msg with running := false }

/-- The drain loop cannot rearm itself in the absence of concurrent
triggers: an iteration always leaves `pending` cleared. -/
theorem cycleIteration_pending (session : DevSession) (reason : String)
    (syncResult : SyncExecutionResult) (now : Nat) (shortRes : ExecResult)
    (env : LongEnv) :
    (cycleIteration session reason syncResult now shortRes env).1.pending = false := by
  unfold cycleIteration
  dsimp only
  split
  · rfl
  · split
    · split <;> rfl
    · split
      · unfold maybeStartLongTask
        split
        · rfl
        · split
          · dsimp only
            split
            · rfl
            · unfold launchLongTask
              dsimp only
              split <;> rfl
          · unfold launchLongTask
            dsimp only
            split <;> rfl
      · rfl

/-! ### Concurrency skeleton of `runDevSessionCycle` -/

/-- Observable control state of one session's cycle machinery, with a
ghost counter of drain-loop iterations entered. -/
structure CycleState where
  running : Bool
  pending : Bool
  stopRequested : Bool
  iterations : Nat
deriving DecidableEq, Repr

/-- Events of the cycle LTS.  `trigger` is an invocation of
`runDevSessionCycle` (watch firing, session start, manual trigger);
`iterEnd true` is the end of a drain-loop iteration reaching the
`while (pending && !stopRequested)` check (line 793); `iterEnd false` is
an iteration aborting through the `catch` block; `stopRequest` is
`dev_session_stop` setting `stopRequested` (line 2083). -/
inductive CycleEvent
  | trigger
  | iterEnd (ok : Bool)
  | stopRequest
deriving DecidableEq, Repr

/-- One LTS step, read off src/index.ts lines 748-799 and 2083:
a trigger returns immediately after stop (line 749), merges into the
pending flag while a cycle runs (lines 751-754), and otherwise enters the
drain loop (lines 756-759, a new iteration clears `pending`); a normally
ending iteration repeats when `pending && !stopRequested` (line 793) and
otherwise clears `running` (line 797); an aborting iteration clears
`running` leaving `pending` untouched (lines 794-798). -/
def cycleStep (s : CycleState) : CycleEvent → CycleState
  | .trigger =>
    if s.stopRequested then s
    else if s.running then { s with pending := true }
    else { s with running := true, pending := false, iterations := s.iterations + 1 }
  | .iterEnd ok =>
    if s.running = false then s
    else if ok = true ∧ s.pending = true ∧ s.stopRequested = false then
      { s with pending := false, iterations := s.iterations + 1 }
    else { s with running := false }
  | .stopRequest => { s with stopRequested := true }

/-- Left fold of cycle events. -/
def cycleSteps (s : CycleState) (events : List CycleEvent) : CycleState :=
  events.foldl cycleStep s

/-! ## `dev_session_start` handler (src/index.ts lines 1898-2034)

The handler destructures its arguments (applying defaults), runs the
validation chain, and only then creates the session record in the
registry, starts the watcher/poll timer and runs the initial cycle.
External effects after the registry insert are recorded abstractly. -/

/-- Raw tool-call arguments after destructuring; `none` means the field
was absent so the destructuring default applies. -/
structure StartArgs where
  session_name : Option String := none
  server : String
  local_path : String
  remote_path : String
  remote_working_dir : Option String := none
  mode : Option String := none
  short_command : Option String := none
  long_command : Option String := none
  exclude : Option (List String) := none
  method : Option String := none
  delete_remote_extra : Option Bool := none
  debounce_ms : Option Int := none
  poll_interval_seconds : Option Int := none
  log_lines : Option Int := none
  follow_seconds : Option Int := none
deriving Repr

/-- Effects the handler performs after the session record is inserted. -/
inductive StartEffect
  | watcherStarted
  | pollTimerArmed
  | initialCycleRun
  | initialPollRun
deriving DecidableEq, Repr

/-- The validation prefix of the handler (lines 1933-1968) followed by the
construction of the session record (lines 1970-1997).  `sessionId` stands
for `createSessionId`'s name-timestamp-random identifier and `now` for
`Date.now()`. -/
def validateStartArgs (a : StartArgs) (sessionId : String) (now : Nat) :
    Except String DevSession := do
  let session_name := a.session_name.getD "dev-session"
  let mode := a.mode.getD "short"
  let excludeArg := a.exclude.getD []
  let methodArg := a.method.getD "auto"
  let delete_remote_extra := a.delete_remote_extra.getD false
  let debounce_ms := a.debounce_ms.getD 800
  let poll_interval_seconds := a.poll_interval_seconds.getD 5
  let log_lines := a.log_lines.getD 80
  let follow_seconds := a.follow_seconds.getD 1
  let safeSessionName ← assertSessionName session_name
  let safeServer ← assertServerName a.server
  let safeLocalPath ← assertPath a.local_path "local_path"
  let safeRemotePath ← assertPath a.remote_path "remote_path"
  let safeRemoteWorkingDir ←
    match a.remote_working_dir with
    | some d => if d ≠ "" then assertPath d "remote_working_dir" else pure safeRemotePath
    | none => pure safeRemotePath
  let safeMode ← assertDevSessionMode mode
  let safeExclude ← assertStringArray excludeArg "exclude"
  let safeMethod ← assertSyncMethod methodArg
  let safeDebounceMs ← assertPositiveInt debounce_ms "debounce_ms"
  let safePollInterval ← assertPositiveInt poll_interval_seconds "poll_interval_seconds"
  let safeLogLines ← assertPositiveInt log_lines "log_lines"
  let safeFollowSeconds ←
    if follow_seconds < 0 ∨ 86400 < follow_seconds then
      Except.error "follow_seconds must be an integer between 0 and 86400"
    else pure follow_seconds
  let safeShortCommand ←
    match safeMode with
    | .short =>
      (match a.short_command with
       | some c =>
         if c ≠ "" then (assertString c "short_command").map some
         else Except.error "short mode requires short_command"
       | none => Except.error "short mode requires short_command")
    | .long => pure (none : Option String)
  let safeLongCommand ←
    match safeMode with
    | .long =>
      (match a.long_command with
       | some c =>
         if c ≠ "" then (assertString c "long_command").map some
         else Except.error "long mode requires long_command"
       | none => Except.error "long mode requires long_command")
    | .short => pure (none : Option String)
  pure
    { id := sessionId
      name := safeSessionName
      server := safeServer
      localPath := safeLocalPath
      remotePath := safeRemotePath
      remoteWorkingDir := safeRemoteWorkingDir
      exclude := safeExclude
      syncMethod := safeMethod
      deleteRemoteExtra := delete_remote_extra
      mode := safeMode
      shortCommand := safeShortCommand
      longCommand := safeLongCommand
      debounceMs := safeDebounceMs
      pollIntervalSeconds := safePollInterval
      logLines := safeLogLines
      followSeconds := safeFollowSeconds
      running := false
      pending := false
      stopRequested := false
      status := .running
      startedAt := now
      syncCount := 0
      runCount := 0
      changedPaths := []
      lastOperation := some "session created" }

/-- The `dev_session_start` handler over the session registry: validation
first; only on success is the record inserted (`devSessions.set`, line
1999) and are the watcher, the long-mode poll timer, the initial cycle and
the initial poll issued (lines 2000-2014). -/
def devSessionStartHandler (registry : List (String × DevSession)) (a : StartArgs)
    (sessionId : String) (now : Nat) :
    Except String String × List (String × DevSession) × List StartEffect :=
  match validateStartArgs a sessionId now with
  | .error e => (.error e, registry, [])
  | .ok session =>
    (.ok sessionId,
     (sessionId, session) :: registry,
     [.watcherStarted] ++
       (if session.mode = .long then [.pollTimerArmed] else []) ++
       [.initialCycleRun] ++
       (if session.mode = .long then [.initialPollRun] else []))

/-! ## Supporting lemmas -/

theorem strAppendEmptyRight (s : String) : s ++ "" = s := by
  cases s with
  | mk l =>
    show String.mk (l ++ []) = String.mk l
    rw [List.append_nil]

theorem strAppendEmptyLeft (s : String) : "" ++ s = s := by
  cases s with
  | mk l => rfl

theorem strAppendAssoc (a b c : String) : (a ++ b) ++ c = a ++ (b ++ c) := by
  cases a with
  | mk la =>
    cases b with
    | mk lb =>
      cases c with
      | mk lc =>
        show String.mk ((la ++ lb) ++ lc) = String.mk (la ++ (lb ++ lc))
        rw [List.append_assoc]

/-- Non-settling events only accumulate stream chunks. -/
theorem runExec_prefix (pre : List ProcEvent) (hpre : ∀ e ∈ pre, settlesEvent e = false)
    (out err : String) (rest : List ProcEvent) :
    runExec out err (pre ++ rest) =
      runExec (out ++ collectStdout pre) (err ++ collectStderr pre) rest := by
  induction pre generalizing out err with
  | nil => simp [collectStdout, collectStderr, strAppendEmptyRight]
  | cons e pre ih =>
    have he : settlesEvent e = false := hpre e (List.mem_cons_self e pre)
    have hpre2 : ∀ x ∈ pre, settlesEvent x = false :=
      fun x hx => hpre x (List.mem_cons_of_mem e hx)
    cases e with
    | stdoutData c =>
      show runExec (out ++ c) err (pre ++ rest) = _
      rw [ih hpre2, strAppendAssoc]
      rfl
    | stderrData c =>
      show runExec out (err ++ c) (pre ++ rest) = _
      rw [ih hpre2, strAppendAssoc]
      rfl
    | close code => simp [settlesEvent] at he
    | errored msg => simp [settlesEvent] at he

/-- If some event settles, the fold resolves. -/
theorem runExec_isSome (events : List ProcEvent)
    (h : ∃ e ∈ events, settlesEvent e = true) :
    ∀ out err, (runExec out err events).isSome = true := by
  induction events with
  | nil => simp at h
  | cons e rest ih =>
    intro out err
    cases e with
    | stdoutData c =>
      apply ih
      rcases h with ⟨x, hx, hs⟩
      rcases List.mem_cons.mp hx with h1 | h2
      · subst h1; simp [settlesEvent] at hs
      · exact ⟨x, h2, hs⟩
    | stderrData c =>
      apply ih
      rcases h with ⟨x, hx, hs⟩
      rcases List.mem_cons.mp hx with h1 | h2
      · subst h1; simp [settlesEvent] at hs
      · exact ⟨x, h2, hs⟩
    | close code => rfl
    | errored msg => rfl

/-- A trigger on a running, not-stopped session only sets the pending
flag. -/
theorem cycleStep_trigger_running (s : CycleState) (h1 : s.running = true)
    (h2 : s.stopRequested = false) :
    cycleStep s .trigger = { s with pending := true } := by
  simp [cycleStep, h1, h2]

/-- Repeated triggers on a running, pending, not-stopped session are
absorbed. -/
theorem cycleSteps_triggers_absorbed (n : Nat) (s : CycleState) (h1 : s.running = true)
    (h2 : s.stopRequested = false) (h3 : s.pending = true) :
    cycleSteps s (List.replicate n .trigger) = s := by
  induction n generalizing s with
  | zero => rfl
  | succ n ih =>
    rw [List.replicate_succ]
    show cycleSteps (cycleStep s .trigger) (List.replicate n .trigger) = s
    rw [cycleStep_trigger_running s h1 h2]
    have hs : ({ s with pending := true } : CycleState) = s := by
      cases s
      simp_all
    rw [hs]
    exact ih s h1 h2 h3

/-! ## Claims -/

/-- Claim C1, counterexample.  A cycle is started by a trigger, three more
triggers arrive while it is in flight (merging into the pending flag), and
the in-flight iteration then aborts through the catch block (`iterEnd
false`, e.g. a sync failure thrown at line 777).  The machine ends idle
(`running = false`) with only the original iteration ever entered
(`iterations = 1`): zero additional cycles ran after the current one
finished, where the claim demands exactly one. -/
theorem claim_C1_counterexample :
    cycleSteps ⟨false, false, false, 0⟩
      [.trigger, .trigger, .trigger, .iterEnd false] =
      ⟨false, true, false, 1⟩ := rfl

/-- Claim C1 (amended): for every session cycle state with a cycle in
flight and no stop requested, any positive number of triggers arriving
during the in-flight window starts no concurrent cycle (the state merely
gains the pending flag, the iteration count is unchanged), and when the
in-flight iteration then completes NORMALLY, exactly one additional
drain-loop iteration is entered, after which (absent further triggers) the
machine returns to idle with no further iteration.  If the in-flight
iteration instead aborts through the catch block, no additional cycle is
started (see the counterexample). -/
theorem claim_C1_holds (s : CycleState) (n : Nat) (h1 : s.running = true)
    (h2 : s.pending = false) (h3 : s.stopRequested = false) (hn : 1 ≤ n) :
    cycleSteps s (List.replicate n .trigger) = { s with pending := true } ∧
    cycleStep { s with pending := true } (.iterEnd true) =
      { s with pending := false, iterations := s.iterations + 1 } ∧
    cycleStep { s with pending := false, iterations := s.iterations + 1 } (.iterEnd true) =
      { s with running := false, pending := false, iterations := s.iterations + 1 } := by
  refine ⟨?_, ?_, ?_⟩
  · obtain ⟨m, rfl⟩ : ∃ m, n = m + 1 := ⟨n - 1, (Nat.succ_pred_eq_of_pos hn).symm⟩
    rw [List.replicate_succ]
    show cycleSteps (cycleStep s .trigger) (List.replicate m .trigger) = _
    rw [cycleStep_trigger_running s h1 h3]
    exact cycleSteps_triggers_absorbed m _ (by simp [h1]) (by simp [h3]) (by simp)
  · simp [cycleStep, h1, h3]
  · simp [cycleStep, h1, h3]

/-- Claim C1 witness. -/
theorem claim_C1_witness :
    cycleSteps ⟨true, false, false, 4⟩ (List.replicate 3 .trigger) =
      ⟨true, true, false, 4⟩ ∧
    cycleStep ⟨true, true, false, 4⟩ (.iterEnd true) = ⟨true, false, false, 5⟩ ∧
    cycleStep ⟨true, false, false, 5⟩ (.iterEnd true) = ⟨false, false, false, 5⟩ :=
  claim_C1_holds ⟨true, false, false, 4⟩ 3 rfl rfl rfl (by decide)

/-- Claim C2: once stop has been requested, a trigger leaves the cycle
state completely unchanged (no pending flag set, no iteration entered),
`scheduleDevSessionCycle` does not arm the debounce timer, an in-flight
iteration reaching its end simply clears the running flag without entering
another iteration, stop-requested is never cleared by any event, and the
stop request itself does not preempt a running cycle (it changes only the
`stopRequested` flag). -/
theorem claim_C2_holds (s : CycleState) (w : DevSession) (r : String)
    (e : CycleEvent) (ok : Bool) (hs : s.stopRequested = true)
    (hw : w.stopRequested = true) :
    cycleStep s .trigger = s ∧
    (s.running = true → cycleStep s (.iterEnd ok) = { s with running := false }) ∧
    (cycleStep s e).stopRequested = true ∧
    scheduleDevSessionCycle w r = w ∧
    (∀ s2 : CycleState, cycleStep s2 .stopRequest = { s2 with stopRequested := true }) := by
  refine ⟨?_, ?_, ?_, ?_, ?_⟩
  · simp [cycleStep, hs]
  · intro hr
    simp [cycleStep, hr, hs]
  · cases e with
    | trigger =>
      by_cases hr : s.running = true <;> simp [cycleStep, hs, hr]
    | iterEnd ok2 =>
      by_cases hr : s.running = false <;> simp [cycleStep, hs, hr]
    | stopRequest => simp [cycleStep]
  · simp [scheduleDevSessionCycle, hw]
  · intro s2
    rfl

/-- Claim C2 witness. -/
theorem claim_C2_witness :
    cycleStep ⟨true, true, true, 2⟩ .trigger = ⟨true, true, true, 2⟩ ∧
    scheduleDevSessionCycle { id := "w", stopRequested := true } "changed.ts" =
      { id := "w", stopRequested := true } ∧
    cycleStep ⟨true, true, true, 2⟩ (.iterEnd true) = ⟨false, true, true, 2⟩ :=
  ⟨(claim_C2_holds ⟨true, true, true, 2⟩ { id := "w", stopRequested := true }
      "changed.ts" .trigger true rfl rfl).1,
   (claim_C2_holds ⟨true, true, true, 2⟩ { id := "w", stopRequested := true }
      "changed.ts" .trigger true rfl rfl).2.2.2.1,
   ((claim_C2_holds ⟨true, true, true, 2⟩ { id := "w", stopRequested := true }
      "changed.ts" .trigger true rfl rfl).2.1 rfl).trans (by decide)⟩

/-- Claim C3: sync fallback contract under `method = auto`.  For every
call that passes validation: if the rsync invocation exits 0 the result
reports method rsync with no fallback; if rsync fails and the failure is
classified rsync-unavailable (`isRsyncUnavailable`: exit code 127 or a
command-not-found signature in the combined output), the engine falls back
to scp and reports method scp, `fallback_used = true`, and the original
rsync stdout/stderr joined into `rsync_error`; any other rsync failure is
reported directly as method rsync with no fallback and no scp invocation
in the trace. -/
theorem claim_C3_holds (server lp rp : String) (excl : Option (List String))
    (del : Option Bool) (cfg : Option ServerConfig) (env : SyncEnv)
    (r : SyncExecutionResult) (trace : List SyncCall)
    (h : performRemoteSync server lp rp excl (some .auto) del cfg env = .ok (r, trace)) :
    (env.rsyncRes.exitCode = 0 →
      r.method = .rsync ∧ r.fallback_used = false ∧ r.success = true ∧
      r.output = env.rsyncRes.stdout ∧ r.stderr = env.rsyncRes.stderr) ∧
    (env.rsyncRes.exitCode ≠ 0 → isRsyncUnavailable env.rsyncRes = true →
      r.method = .scp ∧ r.fallback_used = true ∧
      r.rsync_error = some (joinRsyncOutputs env.rsyncRes)) ∧
    (env.rsyncRes.exitCode ≠ 0 → isRsyncUnavailable env.rsyncRes = false →
      r.method = .rsync ∧ r.fallback_used = false ∧
      r.exit_code = env.rsyncRes.exitCode ∧ ∀ a, SyncCall.scpCall a ∉ trace) := by
  unfold performRemoteSync at h
  split at h
  · exact absurd h (by simp)
  split at h
  · exact absurd h (by simp)
  split at h
  · exact absurd h (by simp)
  split at h
  · exact absurd h (by simp)
  simp only [Option.getD_some] at h
  rw [if_pos (by decide : (SyncMethod.auto ≠ SyncMethod.scp))] at h
  split at h
  · exact absurd h (by simp)
  split at h
  · exact absurd h (by simp)
  refine ⟨?_, ?_, ?_⟩
  · intro h0
    rw [if_pos h0] at h
    injection h with h2
    injection h2 with hr ht
    subst hr
    simp [mkSyncResult, h0]
  · intro h0 hu
    rw [if_neg h0, if_pos (by simp [hu])] at h
    split at h
    · exact absurd h (by simp)
    next res calls heq =>
      injection h with h2
      injection h2 with hr ht
      subst hr
      simp [mkSyncResult]
  · intro h0 hu
    rw [if_neg h0, if_neg (by simp [hu])] at h
    injection h with h2
    injection h2 with hr ht
    subst hr
    subst ht
    refine ⟨rfl, rfl, rfl, fun a hmem => ?_⟩
    simp at hmem

/-- Witness environment: rsync succeeds. -/
def syncEnvRsyncOk : SyncEnv :=
  ⟨⟨"sent 1 file", "", 0⟩, ⟨"", "", 0⟩, ⟨"", "", 0⟩, some .dir, []⟩

/-- Witness environment: rsync unavailable on the remote. -/
def syncEnvUnavailable : SyncEnv :=
  ⟨⟨"", "bash: rsync: command not found", 127⟩, ⟨"", "", 0⟩,
   ⟨"ok", "", 0⟩, some .dir, ["a.txt"]⟩

/-- Witness environment: rsync fails for another reason. -/
def syncEnvOtherFail : SyncEnv :=
  ⟨⟨"", "rsync error: partial transfer", 23⟩, ⟨"", "", 0⟩,
   ⟨"", "", 0⟩, some .dir, ["a.txt"]⟩

/-- Claim C3 witness: one concrete instance per branch of the contract. -/
theorem claim_C3_witness :
    (∀ r trace,
      performRemoteSync "srv" "/l" "/r" none (some .auto) none none syncEnvRsyncOk =
        .ok (r, trace) → r.method = .rsync ∧ r.fallback_used = false) ∧
    (∀ r trace,
      performRemoteSync "srv" "/l" "/r" none (some .auto) none none syncEnvUnavailable =
        .ok (r, trace) → r.method = .scp ∧ r.fallback_used = true ∧
          r.rsync_error = some "bash: rsync: command not found") ∧
    (∀ r trace,
      performRemoteSync "srv" "/l" "/r" none (some .auto) none none syncEnvOtherFail =
        .ok (r, trace) → r.method = .rsync ∧ r.fallback_used = false ∧
          ∀ a, SyncCall.scpCall a ∉ trace) := by
  refine ⟨?_, ?_, ?_⟩
  · intro r trace h
    have := (claim_C3_holds "srv" "/l" "/r" none none none syncEnvRsyncOk r trace h).1
      (by decide)
    exact ⟨this.1, this.2.1⟩
  · intro r trace h
    have := (claim_C3_holds "srv" "/l" "/r" none none none syncEnvUnavailable r trace h).2.1
      (by decide) (by decide)
    exact ⟨this.1, this.2.1, this.2.2.trans (by decide)⟩
  · intro r trace h
    have := (claim_C3_holds "srv" "/l" "/r" none none none syncEnvOtherFail r trace h).2.2
      (by decide) (by decide)
    exact ⟨this.1, this.2.1, this.2.2.2⟩

/-- Claim C4, counterexample.  `"node_modules"` contains no wildcard and
no separator, and it is the FIRST path segment of the changed path
`"node_modules/app.js"` (the pattern followed by a separator is a prefix
of the path), yet `shouldIgnorePath` does not classify the path as
ignored: the code only matches the whole path, an interior `/p/` segment,
or the basename. -/
theorem claim_C4_counterexample :
    shouldIgnorePath "node_modules/app.js" ["node_modules"] = false ∧
    ("node_modules/").data.isPrefixOf ("node_modules/app.js").data = true := by
  decide

/-- Claim C4 (amended): for every exclude pattern containing neither a
wildcard nor a separator, every changed relative path whose normalized
form equals the pattern, contains the pattern as an INTERIOR segment
(surrounded by separators on both sides), or whose basename equals the
pattern, is classified as ignored by the watch layer's path filter.  A
path having the pattern only as its first segment (pattern followed by a
separator, basename different) is not matched — see the counterexample. -/
theorem claim_C4_holds (path p : String) (ps : List String) (hmem : p ∈ ps)
    (hstar : (normalizeWatchPath p).data.any (fun c => c = '*') = false)
    (hslash : (normalizeWatchPath p).data.any (fun c => c = '/') = false)
    (hmatch : normalizeWatchPath path = normalizeWatchPath p ∨
      strContains (normalizeWatchPath path)
        ("/" ++ normalizeWatchPath p ++ "/") = true ∨
      posixBasename (normalizeWatchPath path) = normalizeWatchPath p) :
    shouldIgnorePath path ps = true := by
  unfold shouldIgnorePath
  rw [List.any_eq_true]
  refine ⟨p, hmem, ?_⟩
  simp only [hstar, hslash, Bool.not_false, if_true, if_false, Bool.false_eq_true]
  rcases hmatch with h1 | h2 | h3
  · simp [h1]
  · simp [h2]
  · simp [h3]

/-- Claim C4 witness. -/
theorem claim_C4_witness :
    shouldIgnorePath "node_modules" ["node_modules"] = true ∧
    shouldIgnorePath "a/node_modules/b.ts" [".git", "node_modules"] = true ∧
    shouldIgnorePath "src/node_modules" ["node_modules"] = true :=
  ⟨claim_C4_holds "node_modules" "node_modules" ["node_modules"] (by decide)
      (by decide) (by decide) (Or.inl (by decide)),
   claim_C4_holds "a/node_modules/b.ts" "node_modules" [".git", "node_modules"]
      (by decide) (by decide) (by decide) (Or.inr (Or.inl (by decide))),
   claim_C4_holds "src/node_modules" "node_modules" ["node_modules"] (by decide)
      (by decide) (by decide) (Or.inr (Or.inr (by decide)))⟩

/-- Claim C5, counterexample.  The raw output has a first marker line
whose remainder does not parse (`"__MCP_PID__x"`) and a second, valid
marker line `"__MCP_PID__42"`.  The second line is a trimmed non-empty
line starting with the marker followed by the positive integer 42, so the
claim demands the parsed id 42; the code uses only the FIRST marker line,
its parse fails, the digit-line fallback finds nothing, and the parser
returns no id. -/
theorem claim_C5_counterexample :
    parseBackgroundPid "__MCP_PID__x\n__MCP_PID__42" = none ∧
    "__MCP_PID__42" ∈ outputLines "__MCP_PID__x\n__MCP_PID__42" ∧
    isMarkerLine "__MCP_PID__42" = true ∧
    jsParseInt (stripFirstOccurrence "__MCP_PID__42" pidMarker) = some 42 := by
  decide

/-- Claim C5 (amended): background PID parsing is marker-first with a
digit-line fallback, where only the FIRST trimmed non-empty line starting
with `__MCP_PID__` is consulted: if the remainder of that first marker
line parses (by JS `parseInt`) to a positive integer, that integer is the
parsed id; if that first marker line is malformed or non-positive, or no
marker line exists, the parsed id is the digit-line fallback — the last
trimmed line consisting purely of digits with a positive value — and no
id otherwise. -/
theorem claim_C5_holds (raw : String) :
    (∀ m p, (outputLines raw).find? isMarkerLine = some m →
      jsParseInt (stripFirstOccurrence m pidMarker) = some p → 0 < p →
      parseBackgroundPid raw = some p) ∧
    (∀ m, (outputLines raw).find? isMarkerLine = some m →
      (∀ p, jsParseInt (stripFirstOccurrence m pidMarker) = some p → ¬0 < p) →
      parseBackgroundPid raw = digitLineFallback (outputLines raw)) ∧
    ((outputLines raw).find? isMarkerLine = none →
      parseBackgroundPid raw = digitLineFallback (outputLines raw)) := by
  refine ⟨?_, ?_, ?_⟩
  · intro m p h1 h2 h3
    simp only [parseBackgroundPid, parsePidLines, h1, h2]
    rw [if_pos h3]
  · intro m h1 h2
    simp only [parseBackgroundPid, parsePidLines, h1]
    cases hp : jsParseInt (stripFirstOccurrence m pidMarker) with
    | none => rfl
    | some p =>
      show (if 0 < p then some p else digitLineFallback (outputLines raw)) = _
      rw [if_neg (h2 p hp)]
  · intro h1
    simp only [parseBackgroundPid, parsePidLines, h1]

/-- Claim C5 witness: banner noise followed by a marker line parses to the
marker id; without a marker the trailing digit line is used. -/
theorem claim_C5_witness :
    parseBackgroundPid "Welcome to Ubuntu\nLast login: Fri\n__MCP_PID__4821" = some 4821 ∧
    parseBackgroundPid "login banner\n4821" = some 4821 :=
  ⟨(claim_C5_holds "Welcome to Ubuntu\nLast login: Fri\n__MCP_PID__4821").1
      "__MCP_PID__4821" 4821 (by decide) (by decide) (by decide),
   ((claim_C5_holds "login banner\n4821").2.2 (by decide)).trans (by decide)⟩

/-- Claim C6: the command executor never throws.  For every program,
argument list, timeout and optional working directory: whenever the
process's event trace settles (a `close` or an `error` event occurs) the
promise resolves with a structured result — on normal completion the
trimmed captured streams and the exit code (−1 when the close code is
null), and on spawn failure exit code −1 with the failure message in
stderr; the return type has no exception path at all. -/
theorem claim_C6_holds (program : String) (args : List String) (timeoutMs : Int)
    (cwd : Option String) (events : List ProcEvent) :
    ((∃ e ∈ events, settlesEvent e = true) →
      ∃ r, executeCommand program args timeoutMs cwd events = some r) ∧
    (∀ pre msg post, events = pre ++ .errored msg :: post →
      (∀ e ∈ pre, settlesEvent e = false) →
      executeCommand program args timeoutMs cwd events = some ⟨"", msg, -1⟩) ∧
    (∀ pre code post, events = pre ++ .close code :: post →
      (∀ e ∈ pre, settlesEvent e = false) →
      executeCommand program args timeoutMs cwd events =
        some ⟨jsTrim (collectStdout pre), jsTrim (collectStderr pre), code.getD (-1)⟩) := by
  refine ⟨?_, ?_, ?_⟩
  · intro h
    exact Option.isSome_iff_exists.mp (runExec_isSome events h "" "")
  · intro pre msg post hev hpre
    show runExec "" "" events = _
    rw [hev, runExec_prefix pre hpre "" ""]
    rfl
  · intro pre code post hev hpre
    show runExec "" "" events = _
    rw [hev, runExec_prefix pre hpre "" ""]
    show runExec ("" ++ collectStdout pre) ("" ++ collectStderr pre) (.close code :: post) = _
    rw [strAppendEmptyLeft, strAppendEmptyLeft]
    rfl

/-- Claim C6 witness. -/
theorem claim_C6_witness :
    executeCommand "rsync" ["-az"] 600000 none
      [.stdoutData " sent 1 ", .stderrData "w ", .close (some 3)] =
      some ⟨"sent 1", "w", 3⟩ ∧
    executeCommand "rsync" [] 600000 (some "/tmp")
      [.errored "spawn rsync ENOENT"] = some ⟨"", "spawn rsync ENOENT", -1⟩ ∧
    executeCommand "ssh" [] 1000 none [.stdoutData "x", .close none] =
      some ⟨"x", "", -1⟩ :=
  ⟨((claim_C6_holds "rsync" ["-az"] 600000 none _).2.2
      [.stdoutData " sent 1 ", .stderrData "w "] (some 3) [] rfl
      (by decide)).trans (by decide),
   (claim_C6_holds "rsync" [] 600000 (some "/tmp") _).2.1 [] "spawn rsync ENOENT" []
      rfl (by simp),
   ((claim_C6_holds "ssh" [] 1000 none _).2.2 [.stdoutData "x"] none [] rfl
      (by decide)).trans (by decide)⟩

/-- A session name with a character outside `[A-Za-z0-9._-]` always fails
`assertSessionName`. -/
theorem assertSessionName_error (name : String)
    (hbad : ∃ c ∈ name.data, safeNameChar c = false) :
    ∃ e, assertSessionName name = .error e := by
  unfold assertSessionName
  by_cases h1 : jsTrim name = ""
  · have ha : assertString name "session_name" =
        .error ("session_name" ++ " must be a non-empty string") := by
      unfold assertString
      rw [if_pos h1]
    rw [ha]
    exact ⟨_, rfl⟩
  · have ha : assertString name "session_name" = .ok name := by
      unfold assertString
      rw [if_neg h1]
    simp only [ha]
    by_cases h2 : hasControlChar name = true
    · have hb : assertNoControlChars name "session_name" =
          .error ("session_name" ++ " contains invalid control characters") := by
        unfold assertNoControlChars
        rw [if_pos h2]
      simp only [hb]
      exact ⟨_, rfl⟩
    · have hb : assertNoControlChars name "session_name" = .ok name := by
        unfold assertNoControlChars
        rw [if_neg h2]
      simp only [hb]
      obtain ⟨c, hc, hcf⟩ := hbad
      have hall : name.data.all safeNameChar = false := by
        cases hall : name.data.all safeNameChar with
        | false => rfl
        | true => exact absurd (List.all_eq_true.mp hall c hc) (by simp [hcf])
      rw [if_neg (by simp [hall])]
      exact ⟨_, rfl⟩

/-- Claim C7: validation precedes effects on session start.  For every
call whose provided `session_name` contains a character outside letters,
digits, `.`, `_`, `-`, the handler fails with a validation error, the
session registry is returned unchanged (no record created), and the effect
list is empty — no watcher, no timer, no subprocess and no network I/O was
issued. -/
theorem claim_C7_holds (registry : List (String × DevSession)) (a : StartArgs)
    (sessionId : String) (now : Nat) (name : String)
    (hname : a.session_name = some name)
    (hbad : ∃ c ∈ name.data, safeNameChar c = false) :
    (∃ e, (devSessionStartHandler registry a sessionId now).1 = .error e) ∧
    (devSessionStartHandler registry a sessionId now).2.1 = registry ∧
    (devSessionStartHandler registry a sessionId now).2.2 = [] := by
  obtain ⟨e, he⟩ := assertSessionName_error name hbad
  have hv : validateStartArgs a sessionId now = .error e := by
    unfold validateStartArgs
    rw [hname]
    show (assertSessionName name >>= _) = _
    rw [he]
    rfl
  unfold devSessionStartHandler
  rw [hv]
  exact ⟨⟨e, rfl⟩, rfl, rfl⟩

/-- Claim C7 witness: a session name containing a space. -/
theorem claim_C7_witness :
    (∃ e, (devSessionStartHandler
        [("old", { id := "old" })]
        { session_name := some "my session", server := "srv", local_path := "/l",
          remote_path := "/r", short_command := some "echo hi" }
        "sid" 7).1 = .error e) ∧
    (devSessionStartHandler
        [("old", { id := "old" })]
        { session_name := some "my session", server := "srv", local_path := "/l",
          remote_path := "/r", short_command := some "echo hi" }
        "sid" 7).2.1 = [("old", { id := "old" })] ∧
    (devSessionStartHandler
        [("old", { id := "old" })]
        { session_name := some "my session", server := "srv", local_path := "/l",
          remote_path := "/r", short_command := some "echo hi" }
        "sid" 7).2.2 = [] :=
  claim_C7_holds [("old", { id := "old" })]
    { session_name := some "my session", server := "srv", local_path := "/l",
      remote_path := "/r", short_command := some "echo hi" }
    "sid" 7 "my session" rfl ⟨' ', by decide, by decide⟩

/-- Claim C8: long-mode restart guard.  The session remembers at most one
remote process id (`pid : Option Int`); whenever a recorded id is found
alive by the remote lookup (exit code 0 and non-empty trimmed output), the
ensure-running step does nothing further — the recorded pid and log file
are unchanged and no launch is issued; conversely a launch is only ever
issued when no id is recorded or the lookup reported the process dead
(nonzero exit or empty output). -/
theorem claim_C8_holds (s : DevSession) (env : LongEnv) :
    (truthyPid s.pid = true → env.checkRes.exitCode = 0 →
      jsTrim env.checkRes.stdout ≠ "" →
      (maybeStartLongTask s env).1.pid = s.pid ∧
      (maybeStartLongTask s env).1.logFile = s.logFile ∧
      ∀ c, LongCall.launch c ∉ (maybeStartLongTask s env).2.2) ∧
    (∀ c, LongCall.launch c ∈ (maybeStartLongTask s env).2.2 →
      truthyPid s.pid = false ∨ env.checkRes.exitCode ≠ 0 ∨
      jsTrim env.checkRes.stdout = "") := by
  constructor
  · intro hp hexit hout
    unfold maybeStartLongTask
    by_cases hg : s.mode ≠ .long ∨ truthyStr s.longCommand = false
    · rw [if_pos hg]
      exact ⟨rfl, rfl, fun c => by simp⟩
    · rw [if_neg hg, if_pos hp]
      refine ⟨?_, ?_, ?_⟩ <;> simp [hexit, hout]
  · intro c hc
    by_cases hp : truthyPid s.pid = true
    · by_cases hexit : env.checkRes.exitCode = 0
      · by_cases hout : jsTrim env.checkRes.stdout = ""
        · exact Or.inr (Or.inr hout)
        · exfalso
          unfold maybeStartLongTask at hc
          by_cases hg : s.mode ≠ .long ∨ truthyStr s.longCommand = false
          · rw [if_pos hg] at hc
            simp at hc
          · rw [if_neg hg, if_pos hp] at hc
            simp [hexit, hout] at hc
      · exact Or.inr (Or.inl hexit)
    · exact Or.inl (by simpa using hp)

/-- Witness sessions and environments for the long-task guard. -/
def longSessionAlive : DevSession :=
  { id := "s1", name := "train", mode := .long, longCommand := some "python train.py",
    pid := some 77, logFile := some "/remote/train.log" }

def longEnvAlive : LongEnv :=
  { checkRes := ⟨"   77 S 10:33 python train.py", "", 0⟩, startRes := ⟨"", "", 0⟩ }

/-- Claim C8 witness: a live recorded pid is left untouched and nothing is
launched. -/
theorem claim_C8_witness :
    (maybeStartLongTask longSessionAlive longEnvAlive).1.pid = some 77 ∧
    (maybeStartLongTask longSessionAlive longEnvAlive).1.logFile =
      some "/remote/train.log" ∧
    ∀ c, LongCall.launch c ∉ (maybeStartLongTask longSessionAlive longEnvAlive).2.2 :=
  ((claim_C8_holds longSessionAlive longEnvAlive).1 (by decide) (by decide)
    (by decide)).imp (fun h => h.trans (by decide))
    (fun h => ⟨h.1.trans (by decide), h.2⟩)

/-- Claim C9 (implicit): on every cycle iteration the sync bookkeeping —
the sync counter increment, the `lastSyncAt` update and the clearing of
the changed-path set — happens before the sync result's success flag is
examined; hence after a cycle whose sync failed the session's pending
changed-path set is empty (the record of unsynced paths is discarded, not
retained), while the sync counter still advanced, the sync result was
stored, and the failure was recorded as the session error. -/
theorem claim_C9_holds (s : DevSession) (reason : String)
    (syncResult : SyncExecutionResult) (now : Nat) (shortRes : ExecResult)
    (env : LongEnv) (h1 : s.stopRequested = false) (h2 : s.running = false)
    (h3 : syncResult.success = false) :
    (runDevSessionCycleOnce s reason syncResult now shortRes env).changedPaths = [] ∧
    (runDevSessionCycleOnce s reason syncResult now shortRes env).syncCount =
      s.syncCount + 1 ∧
    (runDevSessionCycleOnce s reason syncResult now shortRes env).lastSyncAt = some now ∧
    (runDevSessionCycleOnce s reason syncResult now shortRes env).lastSyncResult =
      some syncResult ∧
    (runDevSessionCycleOnce s reason syncResult now shortRes env).status = .error ∧
    (runDevSessionCycleOnce s reason syncResult now shortRes env).running = false := by
  unfold runDevSessionCycleOnce
  rw [if_neg (by simp [h1]), if_neg (by simp [h2])]
  unfold cycleIteration
  rw [if_pos h3]
  exact ⟨rfl, rfl, rfl, rfl, rfl, rfl⟩

/-- Witness session: a short-mode session with recorded pending paths. -/
def shortSessionPending : DevSession :=
  { id := "s2", mode := .short, shortCommand := some "npm test",
    changedPaths := ["src/a.ts", "src/b.ts"], syncCount := 3 }

/-- Witness sync failure result. -/
def failedSyncResult : SyncExecutionResult :=
  { success := false, method := .rsync, exit_code := 23, output := "",
    stderr := "rsync: connection unexpectedly closed", exclude := [],
    delete_remote_extra := false, fallback_used := false }

/-- Claim C9 witness. -/
theorem claim_C9_witness :
    (runDevSessionCycleOnce shortSessionPending "watch" failedSyncResult 5
      ⟨"", "", 0⟩ { checkRes := ⟨"", "", 0⟩, startRes := ⟨"", "", 0⟩ }).changedPaths = [] ∧
    (runDevSessionCycleOnce shortSessionPending "watch" failedSyncResult 5
      ⟨"", "", 0⟩ { checkRes := ⟨"", "", 0⟩, startRes := ⟨"", "", 0⟩ }).syncCount = 4 ∧
    (runDevSessionCycleOnce shortSessionPending "watch" failedSyncResult 5
      ⟨"", "", 0⟩ { checkRes := ⟨"", "", 0⟩, startRes := ⟨"", "", 0⟩ }).status = .error :=
  have H := claim_C9_holds shortSessionPending "watch" failedSyncResult 5
    ⟨"", "", 0⟩ { checkRes := ⟨"", "", 0⟩, startRes := ⟨"", "", 0⟩ } rfl rfl rfl
  ⟨H.1, H.2.1.trans (by decide), H.2.2.2.2.1⟩

/-- Boolean form of the string checks passed by `assertString` and
`assertNoControlChars`. -/
def plainStrOk (s : String) : Bool :=
  !(jsTrim s == "") && !hasControlChar s

theorem assertString_ok (s f : String) (h : plainStrOk s = true) :
    assertString s f = .ok s := by
  unfold assertString
  unfold plainStrOk at h
  rw [if_neg]
  intro hc
  simp [hc] at h

theorem assertNoControlChars_ok (s f : String) (h : plainStrOk s = true) :
    assertNoControlChars s f = .ok s := by
  unfold assertNoControlChars
  unfold plainStrOk at h
  rw [if_neg]
  intro hc
  simp [hc] at h

/-- Boolean form of the `SAFE_SERVER_RE` check. -/
def serverNameOk (s : String) : Bool :=
  plainStrOk s && !s.data.isEmpty && s.data.all safeNameChar

theorem assertServerName_ok (s f : String) (h : serverNameOk s = true) :
    assertServerName s f = .ok s := by
  unfold serverNameOk at h
  simp only [Bool.and_eq_true] at h
  unfold assertServerName
  simp only [assertString_ok s f h.1.1, assertNoControlChars_ok s f h.1.1]
  have hcond : (decide (s.data ≠ []) && s.data.all safeNameChar) = true := by
    simp only [Bool.and_eq_true, decide_eq_true_eq]
    exact ⟨by simpa using h.1.2, h.2⟩
  rw [if_pos hcond]

/-- Claim C10 (implicit): the scp argument builder reuses the ssh base
arguments — it copies every option pair unchanged except that an ssh port
pair `-p <port>` is rewritten into scp's capitalised `-P <port>`, and it
always prepends `-r`; the remote spec uses the same `user@host` target as
ssh invocations.  The second part exhibits this concretely for a full
config entry: the scp invocation carries the same multiplexing options,
port (capitalised) and identity file as the ssh base arguments. -/
theorem claim_C10_holds (server remotePath : String) (srcs : List String) :
    (∀ cfg args target, buildSSHBaseArgs server cfg = .ok (args, target) →
      buildSCPArgs server cfg .upload (.multi srcs) remotePath =
        .ok (("-r" :: scpRewriteOptionPairs args) ++ srcs ++
          [target ++ ":" ++ remotePath])) ∧
    (∀ host user p idf, serverNameOk server = true → plainStrOk user = true →
      plainStrOk host = true → 0 < p → plainStrOk idf = true → idf ≠ "" →
      buildSSHBaseArgs server (some ⟨host, user, some p, some idf⟩) =
        .ok (sshFixedOptions ++ ["-p", toString p, "-i", idf],
             user ++ "@" ++ host) ∧
      buildSCPArgs server (some ⟨host, user, some p, some idf⟩) .upload
          (.multi srcs) remotePath =
        .ok (("-r" :: (sshFixedOptions ++ ["-P", toString p, "-i", idf])) ++ srcs ++
          [user ++ "@" ++ host ++ ":" ++ remotePath])) := by
  constructor
  · intro cfg args target h
    unfold buildSCPArgs
    rw [h]
  · intro host user p idf hsrv huser hhost hp hidf hne
    have hbase : buildSSHBaseArgs server (some ⟨host, user, some p, some idf⟩) =
        .ok (sshFixedOptions ++ ["-p", toString p, "-i", idf], user ++ "@" ++ host) := by
      unfold buildSSHBaseArgs assertPositiveInt assertPath
      simp [assertServerName_ok server "server" hsrv, assertString_ok,
        assertNoControlChars_ok, hp, hne, huser, hhost, hidf]
    refine ⟨hbase, ?_⟩
    unfold buildSCPArgs
    rw [hbase]
    show Except.ok (("-r" :: scpRewriteOptionPairs
        (sshFixedOptions ++ ["-p", toString p, "-i", idf])) ++ srcs ++
        [user ++ "@" ++ host ++ ":" ++ remotePath]) = _
    have hrw : scpRewriteOptionPairs (sshFixedOptions ++ ["-p", toString p, "-i", idf]) =
        sshFixedOptions ++ ["-P", toString p, "-i", idf] := by
      show scpRewriteOptionPairs ("-o" :: "BatchMode=yes" :: ("-o" :: "ConnectTimeout=10" ::
        ("-o" :: "ControlMaster=auto" :: ("-o" :: "ControlPersist=300" ::
        ("-o" :: "ControlPath=~/.ssh/remote-executor-%C" ::
        ("-p" :: toString p :: "-i" :: idf :: [])))))) = _
      rw [scpRewriteOptionPairs, scpRewriteOptionPairs, scpRewriteOptionPairs,
          scpRewriteOptionPairs, scpRewriteOptionPairs, scpRewriteOptionPairs,
          scpRewriteOptionPairs, scpRewriteOptionPairs]
      simp [sshFixedOptions]
    rw [hrw]

/-- Claim C10 witness. -/
theorem claim_C10_witness :
    buildSSHBaseArgs "gpu01" (some ⟨"10.0.0.5", "alice", some 8022, some "~/.ssh/id"⟩) =
      .ok (sshFixedOptions ++ ["-p", "8022", "-i", "~/.ssh/id"], "alice@10.0.0.5") ∧
    buildSCPArgs "gpu01" (some ⟨"10.0.0.5", "alice", some 8022, some "~/.ssh/id"⟩)
        .upload (.multi ["/l/a.txt"]) "/remote/dir" =
      .ok (("-r" :: (sshFixedOptions ++ ["-P", "8022", "-i", "~/.ssh/id"])) ++
        ["/l/a.txt"] ++ ["alice@10.0.0.5:/remote/dir"]) :=
  (claim_C10_holds "gpu01" "/remote/dir" ["/l/a.txt"]).2 "10.0.0.5" "alice" 8022
    "~/.ssh/id" (by decide) (by decide) (by decide) (by decide) (by decide) (by decide)

end DevBridge
